import Mathlib

/-!
Verification of the `deproject-gui` calibrator application (`src/app.rs`)
against its natural-language specification.

The development shallowly embeds the Rust/GLSL source:
* the GLSL shader pair of `Scene3d::new` becomes pure Lean functions over `ℝ`
  (GLSL `float` arithmetic is modelled by real arithmetic);
* the side-effecting GL calls of `Scene3d::new`, `Scene3d::paint` and
  `Scene3d::destroy` become explicit effect traces against an abstract GL
  driver, with fatal panics modelled by `Except String`;
* the GUI state (`CalibratorGui`) becomes an explicit state record with the
  event handlers as state-transition functions.

Definitions come first, theorems afterwards.
-/

namespace Deproject

/-! ## Shader embedding

The vertex shader of `Scene3d::new` (src/app.rs lines 116-134):

    const vec2 verts[3] = vec2[3](vec2(0.0, 1.0), vec2(-1.0, -1.0), vec2(1.0, -1.0));
    const vec4 colors[3] = vec4[3](vec4(1,0,0,1), vec4(0,1,0,1), vec4(0,0,1,1));
    out vec4 v_color;
    uniform float u_angle;
    void main() {
        v_color = colors[gl_VertexID];
        gl_Position = vec4(verts[gl_VertexID], 0.0, 1.0);
        gl_Position.x *= cos(u_angle);
    }
-/

/-- A GLSL `vec4`. -/
structure Vec4 where
  x : ℝ
  y : ℝ
  z : ℝ
  w : ℝ

/-- A GLSL `vec2`. -/
structure Vec2 where
  x : ℝ
  y : ℝ

/-- The constant array `verts` of the vertex shader. -/
def verts : Fin 3 → Vec2
  | 0 => ⟨0, 1⟩
  | 1 => ⟨-1, -1⟩
  | 2 => ⟨1, -1⟩

/-- The constant array `colors` of the vertex shader. -/
def colors : Fin 3 → Vec4
  | 0 => ⟨1, 0, 0, 1⟩
  | 1 => ⟨0, 1, 0, 1⟩
  | 2 => ⟨0, 0, 1, 1⟩

/-- The outputs of one invocation of the vertex shader's `main`. -/
structure VertexOut where
  v_color : Vec4
  gl_Position : Vec4

/-- The body of the vertex shader's `main`, line for line: set `v_color`
from `colors[gl_VertexID]`, set `gl_Position` from `verts[gl_VertexID]`
padded with `0.0, 1.0`, then scale `gl_Position.x` by `cos(u_angle)`. -/
noncomputable def vertexMain (u_angle : ℝ) (gl_VertexID : Fin 3) : VertexOut :=
  let v_color := colors gl_VertexID
  let gl_Position : Vec4 := ⟨(verts gl_VertexID).x, (verts gl_VertexID).y, 0, 1⟩
  let gl_Position := { gl_Position with x := gl_Position.x * Real.cos u_angle }
  ⟨v_color, gl_Position⟩

/-- The fragment shader's `main` (src/app.rs lines 135-142):
`out_color = v_color;`. -/
def fragmentMain (v_color : Vec4) : Vec4 := v_color

/-! ## Drag-accumulation angle variant -/

/-- Modelled from the spec: the drag-accumulation angle-update variant
(spec §4.1, policy (b)).  The `paint_view3d` of that application variant is
not part of `src/` (the `paint_view3d` present in `src/app.rs` passes the
constant angle `0.0`, see `paintView3dCallback` below); per the spec, the
angle accumulates the per-frame horizontal drag delta times `0.01`, with no
clamping or wraparound. -/
def dragAccumAngle (θ₀ : ℝ) (dxs : List ℝ) : ℝ :=
  dxs.foldl (fun angle dx => angle + dx * 0.01) θ₀

/-! ## GL effect model

`Scene3d::paint` and `Scene3d::destroy` are straight-line sequences of GL
calls; we embed them as the exact list of effects they issue against the
driver.  `gl.get_uniform_location` is a pure query answered by the context,
so it is modelled as a function of the context rather than an effect. -/

/-- GL object handles (glow's `Program`, `VertexArray`, `Shader` are opaque
driver-issued handles). -/
abbrev Program := Nat

abbrev VertexArray := Nat

abbrev Shader := Nat

abbrev UniformLocation := Nat

/-- `glow::TRIANGLES` (`0x0004`). -/
def TRIANGLES : Nat := 4

/-- `glow::VERTEX_SHADER` (`0x8B31`). -/
def VERTEX_SHADER : Nat := 35633

/-- `glow::FRAGMENT_SHADER` (`0x8B30`). -/
def FRAGMENT_SHADER : Nat := 35632

/-- One side effect issued against the GL driver by `paint` or `destroy`. -/
inductive GlEffect where
  | useProgram : Option Program → GlEffect
  | uniform1f : Option UniformLocation → ℝ → GlEffect
  | bindVertexArray : Option VertexArray → GlEffect
  | drawArrays : Nat → Int → Int → GlEffect
  | deleteProgram : Program → GlEffect
  | deleteVertexArray : VertexArray → GlEffect

/-- The query surface of a GL context used by `paint`:
`get_uniform_location` is a read-only lookup. -/
structure GlContext where
  getUniformLocation : Program → String → Option UniformLocation

/-- The renderer state: a linked program and a vertex-array handle
(struct `Scene3d`, src/app.rs lines 96-99). -/
structure Scene3d where
  program : Program
  vertex_array : VertexArray
deriving DecidableEq

/-- `Scene3d::paint` (src/app.rs lines 195-206), line for line:
`use_program`, `uniform_1_f32` at the location of `"u_angle"`,
`bind_vertex_array`, `draw_arrays(TRIANGLES, 0, 3)`.  The function returns
no value; its behaviour is exactly the effect trace. -/
def Scene3d.paint (s : Scene3d) (gl : GlContext) (angle : ℝ) : List GlEffect :=
  [ .useProgram (some s.program),
    .uniform1f (gl.getUniformLocation s.program "u_angle") angle,
    .bindVertexArray (some s.vertex_array),
    .drawArrays TRIANGLES 0 3 ]

/-- `Scene3d::destroy` (src/app.rs lines 187-193): delete the program,
then delete the vertex array. -/
def Scene3d.destroy (s : Scene3d) : List GlEffect :=
  [ .deleteProgram s.program,
    .deleteVertexArray s.vertex_array ]

/-! ## Construction (`Scene3d::new`)

`Scene3d::new` queries the driver (create/compile/link results) and panics
on failure; the driver's answers are a `GlDriver`, panics are
`Except.error` carrying the panic message, and the resource-manipulating
calls are recorded as a `NewEffect` trace. -/

/-- The driver answers consumed by `Scene3d::new`: results of the `create_*`
calls, per-shader compile status and info log, and per-program link status
and info log. -/
structure GlDriver where
  createProgramResult : Option Program
  createShaderResult : Nat → Option Shader
  compileStatus : Shader → Bool
  shaderInfoLog : Shader → String
  linkStatus : Program → Bool
  programInfoLog : Program → String
  createVertexArrayResult : Option VertexArray

/-- One resource-manipulating call issued by `Scene3d::new`. -/
inductive NewEffect where
  | createProgram : NewEffect
  | createShader : Nat → NewEffect
  | shaderSource : Shader → NewEffect
  | compileShader : Shader → NewEffect
  | attachShader : Program → Shader → NewEffect
  | linkProgram : Program → NewEffect
  | detachShader : Program → Shader → NewEffect
  | deleteShader : Shader → NewEffect
  | createVertexArray : NewEffect
deriving DecidableEq

/-- One iteration of the shader loop of `Scene3d::new` (src/app.rs lines
150-164): `create_shader` (panic `"Cannot create shader"` on failure),
`shader_source`, `compile_shader`, panic with the shader info log when the
compile status is false, else `attach_shader`. -/
def compileOneShader (gl : GlDriver) (program : Program) (shaderType : Nat) :
    Except String (Shader × List NewEffect) :=
  match gl.createShaderResult shaderType with
  | none => .error "Cannot create shader"
  | some shader =>
      if gl.compileStatus shader then
        .ok (shader,
          [ .createShader shaderType, .shaderSource shader,
            .compileShader shader, .attachShader program shader ])
      else
        .error (gl.shaderInfoLog shader)

/-- `Scene3d::new` (src/app.rs lines 103-185): create the program, compile
and attach the vertex then the fragment shader (panicking with the driver
info log on a failed compile), link (panicking with the program info log on
a failed link), detach and delete both shaders, create the vertex array,
and return the `Scene3d` state.  `Except.error` is the panic message. -/
def sceneNew (gl : GlDriver) : Except String (Scene3d × List NewEffect) :=
  match gl.createProgramResult with
  | none => .error "Cannot create program"
  | some program =>
    match compileOneShader gl program VERTEX_SHADER with
    | .error e => .error e
    | .ok (vs, traceV) =>
      match compileOneShader gl program FRAGMENT_SHADER with
      | .error e => .error e
      | .ok (fs, traceF) =>
        if gl.linkStatus program then
          match gl.createVertexArrayResult with
          | none => .error "Cannot create vertex array"
          | some va =>
            .ok (⟨program, va⟩,
              .createProgram :: traceV ++ traceF ++
                [ .linkProgram program,
                  .detachShader program vs, .deleteShader vs,
                  .detachShader program fs, .deleteShader fs,
                  .createVertexArray ])
        else
          .error (gl.programInfoLog program)

/-- A driver on which every step of `Scene3d::new` succeeds (used to
instantiate the construction theorem at a concrete input). -/
def glDriverOk : GlDriver :=
  ⟨some 10, fun t => some (t - 35631), fun _ => true, fun _ => "",
   fun _ => true, fun _ => "", some 20⟩

/-- A driver whose vertex-shader compile fails with info log `"vertex bad"`
(the vertex shader gets handle 2, the fragment shader handle 1). -/
def glDriverVertexFails : GlDriver :=
  ⟨some 10, fun t => some (t - 35631), fun s => s ≠ 2, fun _ => "vertex bad",
   fun _ => true, fun _ => "", some 20⟩

/-- A driver whose program link fails with info log `"link bad"`. -/
def glDriverLinkFails : GlDriver :=
  ⟨some 10, fun t => some (t - 35631), fun _ => true, fun _ => "",
   fun _ => false, fun _ => "link bad", some 20⟩

/-! ## GUI state (`CalibratorGui`) -/

/-- Model of `std::path::PathBuf` as this program observes it:
`fileStemUtf8` is the result of `file_stem().and_then(|s| s.to_str())`
(`some` exactly when a UTF-8 file stem is derivable) and `display` is the
result of `.display().to_string()`.  `std::path` is a library external to
the repository; the two observations are the only ones the source makes. -/
structure RPath where
  fileStemUtf8 : Option String
  display : String
deriving DecidableEq

/-- `PathBuf::default()`: the empty path — no file stem, and its display
rendering is the empty string. -/
def defaultRPath : RPath := ⟨none, ""⟩

/-- The application state (struct `CalibratorGui`, src/app.rs lines 8-13):
an optional renderer handle (`#[serde(skip)]`, so freshly `None` when
deserialized) and the calibration root path. -/
structure CalibratorGui where
  scene_3d : Option Scene3d
  calb_root_path : RPath

/-- `CalibratorGui::default()` from `#[derive(Default)]`: no renderer,
empty path. -/
def CalibratorGui.defaultState : CalibratorGui := ⟨none, defaultRPath⟩

/-- `CalibratorGui::new` (src/app.rs lines 16-28): load the stored instance
from eframe's storage when present (the deserialized instance has
`scene_3d = None` because of `#[serde(skip)]`), fall back to the default,
then set `scene_3d` to the freshly constructed renderer. -/
def CalibratorGui.new (stored : Option CalibratorGui) (scene : Scene3d) :
    CalibratorGui :=
  let inst := stored.getD CalibratorGui.defaultState
  { inst with scene_3d := some scene }

/-- The path-button label of `left_panel` (src/app.rs lines 60-66), line for
line: `file_stem().and_then(to_str).map(to_string).unwrap_or(display())`,
then `format!("Path: {path_text}")`. -/
def leftPanelPathText (g : CalibratorGui) : String :=
  let path_text :=
    (g.calb_root_path.fileStemUtf8.map (fun s => s)).getD
      g.calb_root_path.display
  "Path: " ++ path_text

/-- The path-button click handler of `left_panel` (src/app.rs lines 68-72):
`if let Some(folder) = FileDialog::new().pick_folder() { self.calb_root_path
= folder }` — the dialog's result is the `Option RPath` argument. -/
def leftPanelPickFolder (dialog : Option RPath) (g : CalibratorGui) :
    CalibratorGui :=
  match dialog with
  | some folder => { g with calb_root_path := folder }
  | none => g

/-- The paint callback `paint_view3d` registers (src/app.rs lines 82-86):
`rotating_triangle.lock().paint(painter.gl(), 0.)` — the angle is the
literal constant `0.0`. -/
def paintView3dCallback (scene : Scene3d) (painterGl : GlContext) :
    List GlEffect :=
  scene.paint painterGl 0

/-- The `self.scene_3d.clone().unwrap()` of `paint_view3d` (src/app.rs
line 80) followed by registering the callback: `none` models the panic of
`unwrap` on a missing renderer. -/
def paintView3dRegister (g : CalibratorGui) :
    Option (GlContext → List GlEffect) :=
  g.scene_3d.map (fun scene => fun painterGl => paintView3dCallback scene painterGl)

/-- `CalibratorGui::on_exit` (src/app.rs lines 47-51): when a GL context is
present, `self.scene_3d.as_ref().unwrap().lock().destroy(gl)` (the `none`
result models the panic of `unwrap`); when no context is present, nothing
happens. -/
def onExitDestroy (g : CalibratorGui) (gl : Option GlContext) :
    Option (List GlEffect) :=
  match gl with
  | none => some []
  | some _ => g.scene_3d.map Scene3d.destroy

/-- One frame-loop interaction with the GUI state.  `leftPanelClickPath`
carries the folder dialog's result when the path button is clicked;
`paintFrame` is `update`'s central-panel paint (which clones the renderer
handle and leaves the state unchanged); `save` serializes the state and
leaves it unchanged. -/
inductive GuiOp where
  | leftPanelClickPath : Option RPath → GuiOp
  | paintFrame : GuiOp
  | save : GuiOp

/-- The state transition each `GuiOp` performs, from the handlers in
src/app.rs: only the folder dialog mutates the state, and it only touches
`calb_root_path`. -/
def guiStep : GuiOp → CalibratorGui → CalibratorGui
  | .leftPanelClickPath dialog, g => leftPanelPickFolder dialog g
  | .paintFrame, g => g
  | .save, g => g

/-- Run a sequence of GUI interactions from a starting state. -/
def runGui (ops : List GuiOp) (g : CalibratorGui) : CalibratorGui :=
  ops.foldl (fun g op => guiStep op g) g

/-! ## Renderer lifecycle -/

/-- The renderer-facing events of the application's lifetime. -/
inductive LifeEvent where
  | construct : LifeEvent
  | paint : LifeEvent
  | destroy : LifeEvent
deriving DecidableEq

/-- Renderer events issued by `CalibratorGui::new`: it constructs the
`Scene3d` once (src/app.rs lines 23-25). -/
def lifeNew : List LifeEvent := [.construct]

/-- Renderer events issued by one `update` frame: the central panel's paint
callback paints once (src/app.rs lines 40-44, 82-86). -/
def lifeUpdate : List LifeEvent := [.paint]

/-- Renderer events issued by `on_exit` (src/app.rs lines 47-51): destroy
exactly when a GL context is present. -/
def lifeOnExit (glPresent : Bool) : List LifeEvent :=
  if glPresent then [.destroy] else []

/-- Modelled from the spec: the eframe host's call order — the host event
loop is not part of `src/` — calls `new` once when the rendering context
becomes available, `update` once per frame, and `on_exit` once at teardown
(spec §2 "created once when a rendering context becomes available,
destroyed exactly once when the context is torn down", §5).  The events
each handler issues come from the source (`lifeNew`, `lifeUpdate`,
`lifeOnExit`). -/
def hostRun (frames : Nat) (glAtExit : Bool) : List LifeEvent :=
  lifeNew ++ (List.replicate frames lifeUpdate).flatten ++ lifeOnExit glAtExit

/-- A GUI state with a UTF-8-derivable file stem (for instantiating the
path-label theorem). -/
def stemGui : CalibratorGui := ⟨none, ⟨some "calib", "/home/user/calib"⟩⟩

/-- A GUI state whose path has no derivable UTF-8 file stem (for
instantiating the path-label theorem). -/
def noStemGui : CalibratorGui := ⟨none, ⟨none, "/"⟩⟩

end Deproject

namespace Deproject

/-! ## Theorems -/

/-- C1: for every angle `θ` and vertex index `i`, the clip-space position
output by the vertex shader is `(base_x(i) * cos θ, base_y(i), 0, 1)` where
the base positions are `(0,1)`, `(-1,-1)`, `(1,-1)`.  Holding for all `θ`,
it holds in particular at `0`, `π/2`, `π`, `3π/2` and outside `[0, 2π)`. -/
theorem vertex_position_eq_base_scaled_by_cos (θ : ℝ) (i : Fin 3) :
    (vertexMain θ i).gl_Position =
      ⟨(verts i).x * Real.cos θ, (verts i).y, 0, 1⟩ ∧
    verts 0 = ⟨0, 1⟩ ∧ verts 1 = ⟨-1, -1⟩ ∧ verts 2 = ⟨1, -1⟩ := by
  exact ⟨rfl, rfl, rfl, rfl⟩

/-- C4: the per-vertex colors are independent of the angle — vertex 0 is
always opaque red `(1,0,0,1)`, vertex 1 opaque green `(0,1,0,1)`, vertex 2
opaque blue `(0,0,1,1)` — and the fragment stage outputs the interpolated
vertex color unchanged. -/
theorem vertex_colors_angle_invariant (θ₁ θ₂ : ℝ) :
    (∀ i : Fin 3, (vertexMain θ₁ i).v_color = (vertexMain θ₂ i).v_color) ∧
    (vertexMain θ₁ 0).v_color = ⟨1, 0, 0, 1⟩ ∧
    (vertexMain θ₁ 1).v_color = ⟨0, 1, 0, 1⟩ ∧
    (vertexMain θ₁ 2).v_color = ⟨0, 0, 1, 1⟩ ∧
    (∀ c : Vec4, fragmentMain c = c) := by
  exact ⟨fun i => rfl, rfl, rfl, rfl, fun c => rfl⟩

/-- C2: under the drag-accumulation variant, starting from initial angle
`θ₀` and given horizontal drag deltas `dx₁ … dxₙ`, the angle supplied to
the paint call equals `θ₀ + 0.01 * (dx₁ + … + dxₙ)`, with no clamping or
wraparound. -/
theorem drag_accum_angle_eq_sum (θ₀ : ℝ) (dxs : List ℝ) :
    dragAccumAngle θ₀ dxs = θ₀ + 0.01 * dxs.sum := by
  induction dxs generalizing θ₀ with
  | nil => simp [dragAccumAngle]
  | cons dx rest ih =>
      simp only [dragAccumAngle, List.foldl_cons, List.sum_cons] at *
      rw [ih]
      ring

/-- C3: for every call to `paint` with context `gl` and angle `a`, the
sequence of effects on the graphics context is exactly: bind the stored
program, set the single scalar uniform `u_angle` to `a`, bind the stored
vertex array, and issue one draw of 3 vertices starting at index 0 in
triangle-list mode — and nothing else. -/
theorem paint_effects_exact (s : Scene3d) (gl : GlContext) (a : ℝ) :
    s.paint gl a =
      [ .useProgram (some s.program),
        .uniform1f (gl.getUniformLocation s.program "u_angle") a,
        .bindVertexArray (some s.vertex_array),
        .drawArrays TRIANGLES 0 3 ] ∧
    (s.paint gl a).countP (fun e => match e with
        | .drawArrays _ _ _ => true | _ => false) = 1 ∧
    TRIANGLES = 4 := by
  exact ⟨rfl, rfl, rfl⟩

/-- C5: if compilation of either shader or linking of the program reports
failure, `Scene3d::new` aborts fatally with the driver-reported info log as
the diagnostic (no retry, no fallback — nothing further is attempted); if
compilation and linking succeed, it returns the state holding the linked
program and a vertex-array handle, having detached and deleted both
intermediate shader objects. -/
theorem scene_new_abort_or_build (gl : GlDriver) (p : Program)
    (hp : gl.createProgramResult = some p) :
    (∀ vs, gl.createShaderResult VERTEX_SHADER = some vs →
        gl.compileStatus vs = false →
        sceneNew gl = .error (gl.shaderInfoLog vs)) ∧
    (∀ vs fs, gl.createShaderResult VERTEX_SHADER = some vs →
        gl.compileStatus vs = true →
        gl.createShaderResult FRAGMENT_SHADER = some fs →
        gl.compileStatus fs = false →
        sceneNew gl = .error (gl.shaderInfoLog fs)) ∧
    (∀ vs fs, gl.createShaderResult VERTEX_SHADER = some vs →
        gl.compileStatus vs = true →
        gl.createShaderResult FRAGMENT_SHADER = some fs →
        gl.compileStatus fs = true →
        gl.linkStatus p = false →
        sceneNew gl = .error (gl.programInfoLog p)) ∧
    (∀ vs fs va, gl.createShaderResult VERTEX_SHADER = some vs →
        gl.compileStatus vs = true →
        gl.createShaderResult FRAGMENT_SHADER = some fs →
        gl.compileStatus fs = true →
        gl.linkStatus p = true →
        gl.createVertexArrayResult = some va →
        sceneNew gl = .ok (⟨p, va⟩,
          [ .createProgram,
            .createShader VERTEX_SHADER, .shaderSource vs,
            .compileShader vs, .attachShader p vs,
            .createShader FRAGMENT_SHADER, .shaderSource fs,
            .compileShader fs, .attachShader p fs,
            .linkProgram p,
            .detachShader p vs, .deleteShader vs,
            .detachShader p fs, .deleteShader fs,
            .createVertexArray ])) := by
  refine ⟨?_, ?_, ?_, ?_⟩
  · intro vs hvs hbad
    simp [sceneNew, compileOneShader, hp, hvs, hbad]
  · intro vs fs hvs hok hfs hbad
    simp [sceneNew, compileOneShader, hp, hvs, hok, hfs, hbad]
  · intro vs fs hvs hok hfs hok2 hlink
    simp [sceneNew, compileOneShader, hp, hvs, hok, hfs, hok2, hlink]
  · intro vs fs va hvs hok hfs hok2 hlink hva
    simp [sceneNew, compileOneShader, hp, hvs, hok, hfs, hok2, hlink, hva]

/-- Witness for C5: the construction theorem instantiated at concrete
drivers — a failing vertex compile aborts with its log, a failing link
aborts with the program log, and a fully successful driver yields the
state `⟨10, 20⟩` with the full detach/delete trace. -/
theorem scene_new_abort_or_build_witness :
    sceneNew glDriverVertexFails = .error "vertex bad" ∧
    sceneNew glDriverLinkFails = .error "link bad" ∧
    sceneNew glDriverOk = .ok (⟨10, 20⟩,
      [ .createProgram,
        .createShader VERTEX_SHADER, .shaderSource 2,
        .compileShader 2, .attachShader 10 2,
        .createShader FRAGMENT_SHADER, .shaderSource 1,
        .compileShader 1, .attachShader 10 1,
        .linkProgram 10,
        .detachShader 10 2, .deleteShader 2,
        .detachShader 10 1, .deleteShader 1,
        .createVertexArray ]) :=
  ⟨(scene_new_abort_or_build glDriverVertexFails 10 rfl).1 2 rfl rfl,
   (scene_new_abort_or_build glDriverLinkFails 10 rfl).2.2.1 2 1
      rfl rfl rfl rfl rfl,
   (scene_new_abort_or_build glDriverOk 10 rfl).2.2.2 2 1 20
      rfl rfl rfl rfl rfl rfl⟩

/-- C6: when the folder dialog returns a folder, the stored calibration
root path is replaced by it and the rest of the state is untouched; when
the dialog is cancelled, the handler is a no-op and the whole state is
unchanged. -/
theorem pick_folder_updates_or_noop (g : CalibratorGui) (f : RPath) :
    (leftPanelPickFolder (some f) g).calb_root_path = f ∧
    (leftPanelPickFolder (some f) g).scene_3d = g.scene_3d ∧
    leftPanelPickFolder none g = g := by
  exact ⟨rfl, rfl, rfl⟩

/-- C8: the path button's label is `"Path: "` followed by the path's file
stem when a UTF-8 stem is derivable, and otherwise by the display
rendering of the path, which is the empty string for the default root. -/
theorem path_button_label (g : CalibratorGui) :
    (∀ stem, g.calb_root_path.fileStemUtf8 = some stem →
        leftPanelPathText g = "Path: " ++ stem) ∧
    (g.calb_root_path.fileStemUtf8 = none →
        leftPanelPathText g = "Path: " ++ g.calb_root_path.display) ∧
    leftPanelPathText ⟨g.scene_3d, defaultRPath⟩ = "Path: " := by
  refine ⟨?_, ?_, rfl⟩
  · intro stem hstem
    simp [leftPanelPathText, hstem]
  · intro hnone
    simp [leftPanelPathText, hnone]

/-- Witness for C8: the label theorem instantiated at a path with stem
`"calib"` and at a stem-less path displayed as `"/"`. -/
theorem path_button_label_witness :
    leftPanelPathText stemGui = "Path: calib" ∧
    leftPanelPathText noStemGui = "Path: /" :=
  ⟨(path_button_label stemGui).1 "calib" rfl,
   (path_button_label noStemGui).2.1 rfl⟩

/-- C9: the paint callback registered by the central viewport invokes the
renderer's paint with the constant angle `0.0` whatever the state of any
other input, so every frame issues the identical effect list, and at angle
`0` the vertex positions are exactly the base positions (`cos 0 = 1`). -/
theorem paint_callback_constant_zero (s : Scene3d) (gl : GlContext) :
    paintView3dCallback s gl = s.paint gl 0 ∧
    paintView3dCallback s gl =
      [ .useProgram (some s.program),
        .uniform1f (gl.getUniformLocation s.program "u_angle") 0,
        .bindVertexArray (some s.vertex_array),
        .drawArrays TRIANGLES 0 3 ] ∧
    (∀ i : Fin 3,
        (vertexMain 0 i).gl_Position = ⟨(verts i).x, (verts i).y, 0, 1⟩) := by
  refine ⟨rfl, rfl, fun i => ?_⟩
  simp [vertexMain, Real.cos_zero]

/-- Each GUI interaction leaves the renderer handle untouched. -/
theorem guiStep_scene_3d (op : GuiOp) (g : CalibratorGui) :
    (guiStep op g).scene_3d = g.scene_3d := by
  cases op with
  | leftPanelClickPath dialog => cases dialog <;> rfl
  | paintFrame => rfl
  | save => rfl

/-- C10: after `CalibratorGui::new`, `scene_3d` is `some` of the
constructed renderer and stays so under every sequence of GUI
interactions, so the `unwrap` in `paint_view3d` and the one in `on_exit`
(with a GL context present) never panic. -/
theorem scene_3d_always_some (stored : Option CalibratorGui) (scene : Scene3d)
    (ops : List GuiOp) (gl : GlContext) :
    (runGui ops (CalibratorGui.new stored scene)).scene_3d = some scene ∧
    (paintView3dRegister (runGui ops (CalibratorGui.new stored scene))).isSome
      = true ∧
    (onExitDestroy (runGui ops (CalibratorGui.new stored scene))
        (some gl)).isSome = true := by
  have key : ∀ (l : List GuiOp) (g : CalibratorGui),
      (runGui l g).scene_3d = g.scene_3d := by
    intro l
    induction l with
    | nil => intro g; rfl
    | cons op rest ih =>
        intro g
        show (runGui rest (guiStep op g)).scene_3d = g.scene_3d
        rw [ih, guiStep_scene_3d]
  have h : (runGui ops (CalibratorGui.new stored scene)).scene_3d = some scene := by
    rw [key]; rfl
  refine ⟨h, ?_, ?_⟩
  · simp [paintView3dRegister, h]
  · simp [onExitDestroy, h]

/-- Flattening `n` copies of a one-event list gives `n` events. -/
theorem flatten_replicate_singleton (n : Nat) (e : LifeEvent) :
    (List.replicate n [e]).flatten = List.replicate n e := by
  induction n with
  | zero => rfl
  | succ m ih => simp [List.replicate_succ, ih]

/-- C7: under the host's lifecycle (construct on startup, one paint per
frame, teardown with a GL context present), the event trace is exactly one
`construct`, then the frames' paints, then one `destroy`: `construct` and
`destroy` each occur exactly once, the trace starts with `construct` and
ends with `destroy` (so no paint precedes construction or follows
destruction), and `destroy` releases the program and then the vertex
array. -/
theorem lifecycle_once_and_ordered (frames : Nat) (s : Scene3d) :
    hostRun frames true =
      .construct :: (List.replicate frames .paint ++ [.destroy]) ∧
    (hostRun frames true).head? = some .construct ∧
    (hostRun frames true).getLast? = some .destroy ∧
    (hostRun frames true).count .construct = 1 ∧
    (hostRun frames true).count .destroy = 1 ∧
    s.destroy = [.deleteProgram s.program, .deleteVertexArray s.vertex_array] := by
  have hshape : hostRun frames true =
      .construct :: (List.replicate frames .paint ++ [.destroy]) := by
    simp [hostRun, lifeNew, lifeUpdate, lifeOnExit,
      flatten_replicate_singleton]
  refine ⟨hshape, ?_, ?_, ?_, ?_, rfl⟩
  · rw [hshape]; rfl
  · rw [hshape, show (LifeEvent.construct ::
        (List.replicate frames LifeEvent.paint ++ [LifeEvent.destroy])) =
        (LifeEvent.construct :: List.replicate frames LifeEvent.paint) ++
          [LifeEvent.destroy] by simp]
    exact List.getLast?_concat _
  · rw [hshape]
    simp [List.count_cons, List.count_append, List.count_replicate]
  · rw [hshape]
    simp [List.count_cons, List.count_append, List.count_replicate]

end Deproject
